import Mathlib

/-!
# Verification of the strum-trigger data-acquisition pipeline (`src/main.cpp`)

Shallow embedding of the core logic of the ukulele NanoEdgeAI tutorial
firmware: the duplicate-rejecting sample source (`get_values`), the
two-window trigger heuristic (`strum_trigger`), the capture-buffer fill
(`fill_acc_array`) and the learn-then-classify mode loop
(`neai_library_test_mode`).

Machine floats are modelled by exact rationals, raw sensor integers by `ℤ`,
and the sensor hardware by an explicit stream of raw triples.  The
NanoEdgeAI engine is opaque: its `detect` results enter as a stream of
natural-number similarity scores.
-/

namespace Ukulele

/-- A triple of physical-unit (already divided by 1000) acceleration values,
one per axis: the global `float values[3]` of the source. -/
abbrev Vec3 := ℚ × ℚ × ℚ

/-- A raw sensor reading, one signed integer per axis: `int32_t raw_values[3]`. -/
abbrev Raw := ℤ × ℤ × ℤ

/-- `#define MINI 5` — trigger window size. -/
def MINI : ℕ := 5

/-- `#define THRESH 1.4` — trigger threshold factor (exact rational `7/5`). -/
def THRESH : ℚ := 14 / 10

/-- `#define NOISE 0.15` — noise floor (exact rational `3/20`). -/
def NOISE : ℚ := 15 / 100

/-- `#define THRESH_SIMILARITY 90`. -/
def THRESH_SIMILARITY : ℕ := 90

/-- `#define LEARNING_NUMBER 5` — learning quota in `NEAI_LIB` mode. -/
def LEARNING_NUMBER : ℕ := 5

/-- `#define DATA_INPUT_USER 1024` — capture-buffer length in samples. -/
def DATA_INPUT_USER : ℕ := 1024

/-- `#define AXIS_NUMBER 3`. -/
def AXIS_NUMBER : ℕ := 3

/-! ## The trigger decision (`strum_trigger`, lines 165–212)

The body of `strum_trigger` first pulls `MINI` fresh samples and sums them
per axis (`ref_sum_*`), then pulls `MINI` more (`new_sum_*`), reduces both
windows to per-axis mean magnitudes and decides.  We split the code into
the sample-pulling part (which only depends on the sequence of values the
successive `get_values` calls produce) and the pure decision on the two
window sums; `vals i` stands for the contents of `values[]` after the
`i`-th `get_values` call of the invocation. -/

/-- Componentwise sum of two value triples (the three `+=` statements of a
loop body). -/
def v3add (a b : Vec3) : Vec3 := (a.1 + b.1, a.2.1 + b.2.1, a.2.2 + b.2.2)

/-- Per-axis window sum of `n` consecutive samples starting at offset
`off`: the accumulation loops `for (i = 0; i < MINI; i++) { get_values();
sum_* += values[*]; }`. -/
def windowSum (vals : ℕ → Vec3) (off : ℕ) : ℕ → Vec3
  | 0 => (0, 0, 0)
  | n + 1 => v3add (windowSum vals off n) (vals (off + n))

/-- The decision part of `strum_trigger` (lines 193–211), given the two
per-axis window sums.  The averages are `abs(sum/MINI)`; the noise-gate
condition is transcribed verbatim from line 202, where the same three
candidate-window comparisons appear twice (the reference averages are
never tested). -/
def strum_decision (refS newS : Vec3) : Bool :=
  let new_avg_x := |newS.1 / (MINI : ℚ)|
  let new_avg_y := |newS.2.1 / (MINI : ℚ)|
  let new_avg_z := |newS.2.2 / (MINI : ℚ)|
  let ref_avg_x := |refS.1 / (MINI : ℚ)|
  let ref_avg_y := |refS.2.1 / (MINI : ℚ)|
  let ref_avg_z := |refS.2.2 / (MINI : ℚ)|
  if new_avg_x > NOISE ∧ new_avg_y > NOISE ∧ new_avg_z > NOISE ∧
     new_avg_x > NOISE ∧ new_avg_y > NOISE ∧ new_avg_z > NOISE then
    if new_avg_x > ref_avg_x * THRESH ∨ new_avg_y > ref_avg_y * THRESH ∨
       new_avg_z > ref_avg_z * THRESH then
      true
    else
      false
  else
    false

/-- `strum_trigger()`: consumes `2*MINI` fresh samples — `vals 0 … vals 4`
form the reference window, `vals 5 … vals 9` the candidate window — and
returns the trigger decision. -/
def strum_trigger (vals : ℕ → Vec3) : Bool :=
  strum_decision (windowSum vals 0 MINI) (windowSum vals MINI MINI)

/-- The per-axis reference-window means `ref_avg_*` (absolute value of
sum over `MINI`). -/
def ref_avg (vals : ℕ → Vec3) : Vec3 :=
  (|(windowSum vals 0 MINI).1 / (MINI : ℚ)|,
   |(windowSum vals 0 MINI).2.1 / (MINI : ℚ)|,
   |(windowSum vals 0 MINI).2.2 / (MINI : ℚ)|)

/-- The per-axis candidate-window means `new_avg_*`. -/
def new_avg (vals : ℕ → Vec3) : Vec3 :=
  (|(windowSum vals MINI MINI).1 / (MINI : ℚ)|,
   |(windowSum vals MINI MINI).2.1 / (MINI : ℚ)|,
   |(windowSum vals MINI MINI).2.2 / (MINI : ℚ)|)

/-- The noise gate as the specification words it (§4.2 step 4): *all six*
per-axis means — reference and candidate — strictly exceed the noise
floor.  Stated from the spec, to be compared with the gate the code
actually computes. -/
def spec_noise_gate (vals : ℕ → Vec3) : Prop :=
  (ref_avg vals).1 > NOISE ∧ (ref_avg vals).2.1 > NOISE ∧ (ref_avg vals).2.2 > NOISE ∧
  (new_avg vals).1 > NOISE ∧ (new_avg vals).2.1 > NOISE ∧ (new_avg vals).2.2 > NOISE

/-! ## The learn-then-classify mode loop (`neai_library_test_mode`, lines 131–162)

The loop is driven by the stream of `strum_trigger()` outcomes (one `Bool`
per poll iteration) and, in the classifying phase, by the stream of
similarity scores the opaque `NanoEdgeAI_detect` engine returns.  The
observable behaviour is the sequence of emitted events: an LED/indicator
event per learned buffer (with the printed progress percentage), the
one-time `led_learning_over` signal, and an anomaly/nominal event per
classified buffer. -/

/-- Observable indicator events of `neai_library_test_mode`. -/
inductive Event where
  /-- `led_learned()` together with the printed percentage
  `(int)(learn_cpt * 100) / LEARNING_NUMBER`. -/
  | learned (pct : ℕ)
  /-- `led_learning_over()` — the learning-complete signal. -/
  | learning_over
  /-- `led_anomaly()`. -/
  | anomaly
  /-- `led_nominal()`. -/
  | nominal
deriving DecidableEq

/-- `true` on the per-buffer learning event. -/
def isLearned : Event → Bool
  | .learned _ => true
  | _ => false

/-- The `do { … } while (learn_cpt < LEARNING_NUMBER)` learning loop
(lines 135–145).  Input: current `learn_cpt` and the list of trigger
outcomes still to be consumed.  Output: final `learn_cpt`, emitted events
in order, and the unconsumed trigger outcomes.  Each iteration consumes
one trigger outcome; on `true` it learns (`NanoEdgeAI_learn`), emits
`led_learned` with the printed percentage, and increments the counter;
then the `while` condition is checked. -/
def learn_phase : ℕ → List Bool → ℕ × List Event × List Bool
  | cpt, [] => (cpt, [], [])
  | cpt, t :: ts =>
    let step : ℕ × List Event :=
      if t then (cpt + 1, [Event.learned (cpt * 100 / LEARNING_NUMBER)]) else (cpt, [])
    if step.1 < LEARNING_NUMBER then
      let rest := learn_phase step.1 ts
      (rest.1, step.2 ++ rest.2.1, rest.2.2)
    else
      (step.1, step.2, ts)

/-- The per-detection dispatch of the classifying phase (lines 155–159):
`if (similarity < THRESH_SIMILARITY) led_anomaly(); else led_nominal();`. -/
def classify_step (similarity : ℕ) : Event :=
  if similarity < THRESH_SIMILARITY then Event.anomaly else Event.nominal

/-- The `while(1)` classifying loop (lines 149–161): on each true trigger,
the buffer is refilled and the engine's `k`-th detect result `sims k` is
classified.  The trigger-outcome list is the observed finite prefix of the
infinite poll loop. -/
def classify_phase (sims : ℕ → ℕ) : ℕ → List Bool → List Event
  | _, [] => []
  | k, t :: ts =>
    if t then classify_step (sims k) :: classify_phase sims (k + 1) ts
    else classify_phase sims k ts

/-- `neai_library_test_mode()`: starts learning with `learn_cpt = 0`, runs
the learning loop, emits the one-time `led_learning_over` signal, then
classifies forever. -/
def neai_library_test_mode (sims : ℕ → ℕ) (ts : List Bool) : List Event :=
  (learn_phase 0 ts).2.1 ++
    Event.learning_over :: classify_phase sims 0 (learn_phase 0 ts).2.2

/-! ## The sample source (`get_values`, lines 234–248) and machine state

`get_values` busy-polls `lsm6dsl->get_x_axes(raw_values)` until the fresh
raw triple differs from `last_raw_values` in *all three* axes (the
rejection condition is an OR over per-axis equalities), then stores the
accepted triple and the scaled values.  The sensor is modelled as the list
of raw triples successive `get_x_axes` calls would deliver; `none` means
the list was exhausted while still spinning. -/

/-- The mutable globals of `main.cpp` that the pipeline reads and writes:
`raw_values[3]`, `last_raw_values[3]`, `values[3]` and
`data_user[AXIS_NUMBER * DATA_INPUT_USER]` (modelled as a total map from
slot index to value). -/
structure MachState where
  raw_values : Raw
  last_raw_values : Raw
  values : Vec3
  data_user : ℕ → ℚ

/-- The scaling `values[i] = (float) raw_values[i] / 1000` (line 246). -/
def toValues (r : Raw) : Vec3 :=
  ((r.1 : ℚ) / 1000, (r.2.1 : ℚ) / 1000, (r.2.2 : ℚ) / 1000)

/-- `get_values()`: reads raw triples until one differs from
`last_raw_values` in every axis, then updates `last_raw_values` and
`values`. -/
def get_values_st (s : MachState) : List Raw → Option (MachState × List Raw)
  | [] => none
  | r :: stream =>
    if s.last_raw_values.1 = r.1 ∨ s.last_raw_values.2.1 = r.2.1 ∨
       s.last_raw_values.2.2 = r.2.2 then
      get_values_st { s with raw_values := r } stream
    else
      some ({ s with raw_values := r, last_raw_values := r, values := toValues r }, stream)

/-- One summing window of `strum_trigger` over the machine state: `n`
iterations of `get_values(); sum += values[*];`. -/
def window_loop (acc : Vec3) (s : MachState) (stream : List Raw) :
    ℕ → Option (Vec3 × MachState × List Raw)
  | 0 => some (acc, s, stream)
  | n + 1 =>
    match get_values_st s stream with
    | none => none
    | some (s1, stream1) => window_loop (v3add acc s1.values) s1 stream1 n

/-- `strum_trigger()` threaded through the machine state: pulls the
reference window, then the candidate window, and applies the decision of
lines 193–211. -/
def strum_trigger_st (s : MachState) (stream : List Raw) :
    Option (Bool × MachState × List Raw) :=
  match window_loop (0, 0, 0) s stream MINI with
  | none => none
  | some (refS, s1, stream1) =>
    match window_loop (0, 0, 0) s1 stream1 MINI with
    | none => none
    | some (newS, s2, stream2) => some (strum_decision refS newS, s2, stream2)

/-! ## The capture buffer (`fill_acc_array`, lines 214–232)

The fill loop writes sample `i`'s three axis values to slots
`AXIS_NUMBER*i`, `AXIS_NUMBER*i + 1`, `AXIS_NUMBER*i + 2` of `data_user`,
for `i = 0 … DATA_INPUT_USER - 1`; `vals i` again stands for the values
the `i`-th `get_values()` call of the invocation produces. -/

/-- Axis projection: `values[0]`, `values[1]`, `values[2]`. -/
def axisGet (v : Vec3) : ℕ → ℚ
  | 0 => v.1
  | 1 => v.2.1
  | _ => v.2.2

/-- A single array-slot assignment `data_user[k] = x`. -/
def slotWrite (buf : ℕ → ℚ) (k : ℕ) (x : ℚ) : ℕ → ℚ :=
  fun j => if j = k then x else buf j

/-- The first `n` iterations of the fill loop (lines 219–224). -/
def fill_loop (vals : ℕ → Vec3) : ℕ → (ℕ → ℚ) → ℕ → ℚ
  | 0, buf => buf
  | i + 1, buf =>
    let prev := fill_loop vals i buf
    slotWrite
      (slotWrite (slotWrite prev (AXIS_NUMBER * i) (vals i).1)
        (AXIS_NUMBER * i + 1) (vals i).2.1)
      (AXIS_NUMBER * i + 2) (vals i).2.2

/-- `fill_acc_array()`: all `DATA_INPUT_USER` iterations. -/
def fill_acc_array (vals : ℕ → Vec3) (buf : ℕ → ℚ) : ℕ → ℚ :=
  fill_loop vals DATA_INPUT_USER buf

/-! ## Concrete inputs used by counterexamples and witnesses -/

/-- Reference window constant `0.1` per axis, candidate window `0.3`:
reference means sit *below* the noise floor, candidate means above. -/
def lowRefVals : ℕ → Vec3 :=
  fun i => if i < 5 then (1/10, 1/10, 1/10) else (3/10, 3/10, 3/10)

/-- Reference window constant `0.15` per axis (exactly the noise floor,
hence `≤ NOISE`), candidate window `0.3`. -/
def floorRefVals : ℕ → Vec3 :=
  fun i => if i < 5 then (3/20, 3/20, 3/20) else (3/10, 3/10, 3/10)

/-- All-zero sample stream: every window mean is `0`. -/
def zeroVals : ℕ → Vec3 := fun _ => (0, 0, 0)

/-- §8 scenario: reference `0.2`, candidate `0.3` on every axis. -/
def scenarioHighVals : ℕ → Vec3 :=
  fun i => if i < 5 then (2/10, 2/10, 2/10) else (3/10, 3/10, 3/10)

/-- §8 scenario: reference `0.2`, candidate `0.25` on every axis. -/
def scenarioLowVals : ℕ → Vec3 :=
  fun i => if i < 5 then (2/10, 2/10, 2/10) else (1/4, 1/4, 1/4)

/-- A trigger-outcome prefix with six `true` polls. -/
def exTriggers : List Bool := [true, true, false, true, true, true, true]

/-- A constant similarity-score stream. -/
def exSims : ℕ → ℕ := fun _ => 95

/-- An initial machine state (all globals zeroed, as the `= {0}`
initializers of lines 70–71 set them). -/
def exState : MachState :=
  { raw_values := (0, 0, 0), last_raw_values := (0, 0, 0),
    values := (0, 0, 0), data_user := fun _ => 0 }

/-- An initial machine state whose capture buffer holds `42` everywhere. -/
def exState42 : MachState :=
  { raw_values := (0, 0, 0), last_raw_values := (0, 0, 0),
    values := (0, 0, 0), data_user := fun _ => 42 }

/-- Ten raw readings `(k,k,k)`, `k = 1 … 10`: consecutive triples differ
in every axis, so each is accepted at once. -/
def exStream : List Raw :=
  [(1, 1, 1), (2, 2, 2), (3, 3, 3), (4, 4, 4), (5, 5, 5),
   (6, 6, 6), (7, 7, 7), (8, 8, 8), (9, 9, 9), (10, 10, 10)]

/-- The reference-window sum `strum_trigger_st` accumulates on `exState`
and `exStream`. -/
def exRefSum : Vec3 :=
  v3add (v3add (v3add (v3add (v3add (0, 0, 0) (toValues (1, 1, 1)))
    (toValues (2, 2, 2))) (toValues (3, 3, 3))) (toValues (4, 4, 4)))
    (toValues (5, 5, 5))

/-- The candidate-window sum accumulated on the second half of `exStream`. -/
def exNewSum : Vec3 :=
  v3add (v3add (v3add (v3add (v3add (0, 0, 0) (toValues (6, 6, 6)))
    (toValues (7, 7, 7))) (toValues (8, 8, 8))) (toValues (9, 9, 9)))
    (toValues (10, 10, 10))

/-- The machine state after the ten accepted readings of `exStream`,
starting from `exState42`. -/
def exFinalState : MachState :=
  { raw_values := (10, 10, 10), last_raw_values := (10, 10, 10),
    values := toValues (10, 10, 10), data_user := fun _ => 42 }

/-- The machine state after `exState` accepts the raw reading `(1,2,3)`. -/
def exAccState : MachState :=
  { raw_values := (1, 2, 3), last_raw_values := (1, 2, 3),
    values := toValues (1, 2, 3), data_user := fun _ => 0 }

/-- The machine state after `exState` accepts the raw reading `(4,5,6)`. -/
def exAccState9 : MachState :=
  { raw_values := (4, 5, 6), last_raw_values := (4, 5, 6),
    values := toValues (4, 5, 6), data_user := fun _ => 0 }

/-- Example sample stream for the capture-buffer witness. -/
def exFillVals : ℕ → Vec3 := fun i => ((i : ℚ), (i : ℚ) + 1, (i : ℚ) + 2)

/-- Example pre-fill buffer contents. -/
def exFillBuf : ℕ → ℚ := fun _ => 7

/-- Characterization of `strum_trigger`: it returns `true` exactly when all
three *candidate* means clear the noise floor and some axis's candidate
mean exceeds its reference mean scaled by `THRESH`. -/
theorem strum_trigger_iff (vals : ℕ → Vec3) :
    strum_trigger vals = true ↔
      ((new_avg vals).1 > NOISE ∧ (new_avg vals).2.1 > NOISE ∧ (new_avg vals).2.2 > NOISE) ∧
      ((new_avg vals).1 > (ref_avg vals).1 * THRESH ∨
       (new_avg vals).2.1 > (ref_avg vals).2.1 * THRESH ∨
       (new_avg vals).2.2 > (ref_avg vals).2.2 * THRESH) := by
  unfold strum_trigger strum_decision ref_avg new_avg
  dsimp only
  split
  · split
    · simp only [true_iff]
      constructor
      · tauto
      · tauto
    · simp only [Bool.false_eq_true, false_iff]
      tauto
  · simp only [Bool.false_eq_true, false_iff]
    tauto

/-- Helper for the C1 witness: on the all-zero stream the first candidate
mean is at (indeed below) the noise floor. -/
theorem zeroVals_new_avg_le : (new_avg zeroVals).1 ≤ NOISE := by
  norm_num [new_avg, windowSum, v3add, zeroVals, MINI, NOISE]

/-- C1 — counterexample.  The claim says `strum_trigger` returns `false`
whenever any of the six window means is `≤ 0.15`.  On `lowRefVals` every
reference-window mean is `0.1 ≤ 0.15`, yet the trigger returns `true`:
the gate of line 202 tests only the three candidate means (twice), never
the reference means. -/
theorem C1_counterexample :
    (ref_avg lowRefVals).1 ≤ NOISE ∧ strum_trigger lowRefVals = true := by
  constructor
  · norm_num [ref_avg, windowSum, v3add, lowRefVals, MINI, NOISE,
      abs_of_pos, abs_of_nonneg]
  · norm_num [strum_trigger, strum_decision, windowSum, v3add, lowRefVals,
      MINI, THRESH, NOISE, abs_of_pos, abs_of_nonneg]

/-- C1 — amended.  `strum_trigger` returns `false` whenever any one of the
three *candidate*-window means is `≤ 0.15`; the reference-window means are
not part of the noise gate. -/
theorem C1_noise_gate (vals : ℕ → Vec3)
    (h : (new_avg vals).1 ≤ NOISE ∨ (new_avg vals).2.1 ≤ NOISE ∨
         (new_avg vals).2.2 ≤ NOISE) :
    strum_trigger vals = false := by
  cases hv : strum_trigger vals
  · rfl
  · rcases (strum_trigger_iff vals).1 hv with ⟨⟨h1, h2, h3⟩, -⟩
    rcases h with h | h | h <;> linarith

/-- C1 — witness: the amended theorem applied to the all-zero stream. -/
theorem C1_noise_gate_witness : strum_trigger zeroVals = false :=
  C1_noise_gate zeroVals (Or.inl zeroVals_new_avg_le)

/-- C2 — counterexample.  The claim says the trigger fires only if the
(spec's six-mean) noise gate passes.  On `floorRefVals` the reference
means equal the noise floor, so the spec's gate fails, yet the trigger
returns `true`. -/
theorem C2_counterexample :
    strum_trigger floorRefVals = true ∧ ¬ spec_noise_gate floorRefVals := by
  constructor
  · norm_num [strum_trigger, strum_decision, windowSum, v3add, floorRefVals,
      MINI, THRESH, NOISE, abs_of_pos, abs_of_nonneg]
  · intro hgate
    have h1 := hgate.1
    have : (ref_avg floorRefVals).1 = 3/20 := by
      norm_num [ref_avg, windowSum, v3add, floorRefVals, MINI]
    rw [this] at h1
    norm_num [NOISE] at h1

/-- C2 — amended.  `strum_trigger` returns `true` iff all three
candidate-window means strictly exceed the noise floor and at least one
axis's candidate mean strictly exceeds that axis's reference mean times
`THRESH`. -/
theorem C2_trigger_characterization (vals : ℕ → Vec3) :
    strum_trigger vals = true ↔
      ((new_avg vals).1 > NOISE ∧ (new_avg vals).2.1 > NOISE ∧
       (new_avg vals).2.2 > NOISE) ∧
      ((new_avg vals).1 > (ref_avg vals).1 * THRESH ∨
       (new_avg vals).2.1 > (ref_avg vals).2.1 * THRESH ∨
       (new_avg vals).2.2 > (ref_avg vals).2.2 * THRESH) :=
  strum_trigger_iff vals

/-- C8 — the two §8 scenarios: with reference samples `0.2` and candidate
samples `0.3` on every axis the trigger fires (`0.3 > 0.2 * 1.4 = 0.28`);
with candidate samples `0.25` it does not (`0.25 < 0.28`). -/
theorem C8_scenarios :
    strum_trigger scenarioHighVals = true ∧
    strum_trigger scenarioLowVals = false ∧
    (3 : ℚ)/10 > 2/10 * THRESH ∧ (1 : ℚ)/4 < 2/10 * THRESH := by
  refine ⟨?_, ?_, ?_, ?_⟩
  · norm_num [strum_trigger, strum_decision, windowSum, v3add,
      scenarioHighVals, MINI, THRESH, NOISE, abs_of_pos, abs_of_nonneg]
  · norm_num [strum_trigger, strum_decision, windowSum, v3add,
      scenarioLowVals, MINI, THRESH, NOISE, abs_of_pos, abs_of_nonneg]
  · norm_num [THRESH]
  · norm_num [THRESH]

/-- Unfolding of the learning loop on a false trigger outcome: nothing is
learned, the counter is unchanged, and the loop continues iff the counter
is still below the quota. -/
theorem learn_phase_cons_false (cpt : ℕ) (ts : List Bool) :
    learn_phase cpt (false :: ts) =
      if cpt < LEARNING_NUMBER then learn_phase cpt ts else (cpt, [], ts) := by
  simp [learn_phase]

/-- Unfolding of the learning loop on a true trigger outcome: one buffer is
learned, `led_learned` and the progress percentage are emitted, and the
counter is incremented before the `while` condition is tested. -/
theorem learn_phase_cons_true (cpt : ℕ) (ts : List Bool) :
    learn_phase cpt (true :: ts) =
      if cpt + 1 < LEARNING_NUMBER then
        ((learn_phase (cpt + 1) ts).1,
         Event.learned (cpt * 100 / LEARNING_NUMBER) :: (learn_phase (cpt + 1) ts).2.1,
         (learn_phase (cpt + 1) ts).2.2)
      else (cpt + 1, [Event.learned (cpt * 100 / LEARNING_NUMBER)], ts) := by
  simp [learn_phase]

/-- The learning counter never decreases. -/
theorem learn_phase_mono (ts : List Bool) : ∀ cpt, cpt ≤ (learn_phase cpt ts).1 := by
  induction ts with
  | nil => intro cpt; exact le_refl _
  | cons t ts ih =>
    intro cpt
    cases t
    · rw [learn_phase_cons_false]
      by_cases hc : cpt < LEARNING_NUMBER
      · rw [if_pos hc]; exact ih cpt
      · rw [if_neg hc]
    · rw [learn_phase_cons_true]
      by_cases hc : cpt + 1 < LEARNING_NUMBER
      · rw [if_pos hc]
        exact le_trans (Nat.le_succ cpt) (ih (cpt + 1))
      · rw [if_neg hc]; exact Nat.le_succ cpt

/-- Starting below the quota, the learning counter never exceeds it. -/
theorem learn_phase_bound (ts : List Bool) :
    ∀ cpt, cpt < LEARNING_NUMBER → (learn_phase cpt ts).1 ≤ LEARNING_NUMBER := by
  induction ts with
  | nil => intro cpt h; exact le_of_lt h
  | cons t ts ih =>
    intro cpt h
    cases t
    · rw [learn_phase_cons_false, if_pos h]; exact ih cpt h
    · rw [learn_phase_cons_true]
      by_cases hc : cpt + 1 < LEARNING_NUMBER
      · rw [if_pos hc]; exact ih (cpt + 1) hc
      · rw [if_neg hc]; omega

/-- The number of emitted learning events equals the counter's total
increase: exactly one increment per learned buffer. -/
theorem learn_phase_countP (ts : List Bool) :
    ∀ cpt, ((learn_phase cpt ts).2.1.countP isLearned) = (learn_phase cpt ts).1 - cpt := by
  induction ts with
  | nil => intro cpt; simp [learn_phase]
  | cons t ts ih =>
    intro cpt
    cases t
    · rw [learn_phase_cons_false]
      by_cases hc : cpt < LEARNING_NUMBER
      · rw [if_pos hc]; exact ih cpt
      · rw [if_neg hc]; simp
    · rw [learn_phase_cons_true]
      by_cases hc : cpt + 1 < LEARNING_NUMBER
      · rw [if_pos hc]
        have hm := learn_phase_mono ts (cpt + 1)
        simp [List.countP_cons, isLearned, ih (cpt + 1)]
        omega
      · rw [if_neg hc]
        simp [List.countP_cons, isLearned]

/-- With enough true triggers the learning loop completes: the counter
lands exactly on the quota, the emitted events are the progress
percentages in order, and exactly `LEARNING_NUMBER - cpt` true triggers
are consumed. -/
theorem learn_phase_complete (ts : List Bool) :
    ∀ cpt, cpt < LEARNING_NUMBER → LEARNING_NUMBER - cpt ≤ ts.count true →
      (learn_phase cpt ts).1 = LEARNING_NUMBER ∧
      (learn_phase cpt ts).2.1 =
        (List.range (LEARNING_NUMBER - cpt)).map
          (fun j => Event.learned ((cpt + j) * 100 / LEARNING_NUMBER)) ∧
      ((learn_phase cpt ts).2.2).count true = ts.count true - (LEARNING_NUMBER - cpt) := by
  induction ts with
  | nil =>
    intro cpt h hcount
    simp only [List.count_nil] at hcount
    omega
  | cons t ts ih =>
    intro cpt h hcount
    cases t
    · rw [learn_phase_cons_false, if_pos h]
      have hcnt : ts.count true = (false :: ts).count true := by
        simp [List.count_cons]
      obtain ⟨h1, h2, h3⟩ := ih cpt h (by omega)
      exact ⟨h1, h2, by omega⟩
    · rw [learn_phase_cons_true]
      have hcnt : (true :: ts).count true = ts.count true + 1 := by
        simp [List.count_cons]
      by_cases hc : cpt + 1 < LEARNING_NUMBER
      · rw [if_pos hc]
        obtain ⟨h1, h2, h3⟩ := ih (cpt + 1) hc (by omega)
        refine ⟨h1, ?_, by rw [h3]; omega⟩
        rw [h2]
        have hr : LEARNING_NUMBER - cpt = (LEARNING_NUMBER - (cpt + 1)) + 1 := by omega
        rw [hr, List.range_succ_eq_map, List.map_cons, List.map_map]
        refine List.cons_eq_cons.2 ⟨by simp, ?_⟩
        apply List.map_congr_left
        intro j hj
        simp [Function.comp]
        congr 2
        omega
      · rw [if_neg hc]
        have hL : cpt + 1 = LEARNING_NUMBER := by omega
        refine ⟨hL, ?_, ?_⟩
        · have hr : LEARNING_NUMBER - cpt = 1 := by omega
          simp [hr, List.range_succ]
        · simp only []
          rw [hcnt] at hcount ⊢
          omega

/-- The learning loop never emits the learning-complete signal itself. -/
theorem learn_phase_no_over (ts : List Bool) :
    ∀ cpt, Event.learning_over ∉ (learn_phase cpt ts).2.1 := by
  induction ts with
  | nil => intro cpt; simp [learn_phase]
  | cons t ts ih =>
    intro cpt
    cases t
    · rw [learn_phase_cons_false]
      by_cases hc : cpt < LEARNING_NUMBER
      · rw [if_pos hc]; exact ih cpt
      · rw [if_neg hc]; simp
    · rw [learn_phase_cons_true]
      by_cases hc : cpt + 1 < LEARNING_NUMBER
      · rw [if_pos hc]
        simp only [List.mem_cons, not_or]
        exact ⟨by simp, ih (cpt + 1)⟩
      · rw [if_neg hc]; simp

/-- A classification dispatch is never the learning-complete signal. -/
theorem classify_step_ne_over (s : ℕ) : classify_step s ≠ Event.learning_over := by
  unfold classify_step
  split <;> simp

/-- The classifying loop never emits the learning-complete signal. -/
theorem classify_phase_no_over (sims : ℕ → ℕ) (ts : List Bool) :
    ∀ k, Event.learning_over ∉ classify_phase sims k ts := by
  induction ts with
  | nil => intro k; simp [classify_phase]
  | cons t ts ih =>
    intro k
    cases t
    · simpa [classify_phase] using ih k
    · simp only [classify_phase, if_pos, List.mem_cons, not_or]
      exact ⟨fun heq => classify_step_ne_over (sims k) heq.symm, ih (k + 1)⟩

/-- The learning-complete signal appears exactly once in the whole mode
trace. -/
theorem neai_over_once (sims : ℕ → ℕ) (ts : List Bool) :
    (neai_library_test_mode sims ts).count Event.learning_over = 1 := by
  unfold neai_library_test_mode
  rw [List.count_append, List.count_cons]
  rw [List.count_eq_zero.2 (learn_phase_no_over ts 0),
      List.count_eq_zero.2 (classify_phase_no_over sims (learn_phase 0 ts).2.2 0)]
  simp

/-- C3 — in learn-then-classify mode the learning counter starts at `0`
(the mode enters `learn_phase 0`), never exceeds `LEARNING_NUMBER`, never
decreases, emits exactly one learning event per increment, increments by
exactly `1` on a true trigger and not at all on a false one, completes
after exactly `LEARNING_NUMBER` true triggers, and the learning-complete
signal fires exactly once. -/
theorem C3_learning_counter :
    (∀ ts : List Bool, (learn_phase 0 ts).1 ≤ LEARNING_NUMBER) ∧
    (∀ (cpt : ℕ) (ts : List Bool), cpt ≤ (learn_phase cpt ts).1) ∧
    (∀ ts : List Bool, ((learn_phase 0 ts).2.1.countP isLearned) = (learn_phase 0 ts).1) ∧
    (∀ (cpt : ℕ) (ts : List Bool), cpt + 1 < LEARNING_NUMBER →
      learn_phase cpt (true :: ts) =
        ((learn_phase (cpt + 1) ts).1,
         Event.learned (cpt * 100 / LEARNING_NUMBER) :: (learn_phase (cpt + 1) ts).2.1,
         (learn_phase (cpt + 1) ts).2.2)) ∧
    (∀ (cpt : ℕ) (ts : List Bool), cpt < LEARNING_NUMBER →
      learn_phase cpt (false :: ts) = learn_phase cpt ts) ∧
    (∀ ts : List Bool, LEARNING_NUMBER ≤ ts.count true →
      (learn_phase 0 ts).1 = LEARNING_NUMBER ∧
      ((learn_phase 0 ts).2.2).count true = ts.count true - LEARNING_NUMBER) ∧
    (∀ (sims : ℕ → ℕ) (ts : List Bool), LEARNING_NUMBER ≤ ts.count true →
      (neai_library_test_mode sims ts).count Event.learning_over = 1) := by
  refine ⟨?_, ?_, ?_, ?_, ?_, ?_, ?_⟩
  · intro ts
    exact learn_phase_bound ts 0 (by norm_num [LEARNING_NUMBER])
  · intro cpt ts
    exact learn_phase_mono ts cpt
  · intro ts
    simpa using learn_phase_countP ts 0
  · intro cpt ts hc
    rw [learn_phase_cons_true, if_pos hc]
  · intro cpt ts hc
    rw [learn_phase_cons_false, if_pos hc]
  · intro ts h
    obtain ⟨h1, h2, h3⟩ :=
      learn_phase_complete ts 0 (by norm_num [LEARNING_NUMBER]) (by omega)
    exact ⟨h1, by omega⟩
  · intro sims ts _
    exact neai_over_once sims ts

/-- C3 — witness: the conditional parts of `C3_learning_counter` applied
to concrete trigger prefixes. -/
theorem C3_learning_counter_witness :
    learn_phase 0 [true, true] =
      ((learn_phase 1 [true]).1,
       Event.learned (0 * 100 / LEARNING_NUMBER) :: (learn_phase 1 [true]).2.1,
       (learn_phase 1 [true]).2.2) ∧
    learn_phase 0 [false, true] = learn_phase 0 [true] ∧
    ((learn_phase 0 exTriggers).1 = LEARNING_NUMBER ∧
     ((learn_phase 0 exTriggers).2.2).count true =
       exTriggers.count true - LEARNING_NUMBER) ∧
    (neai_library_test_mode exSims exTriggers).count Event.learning_over = 1 :=
  ⟨C3_learning_counter.2.2.2.1 0 [true] (by decide),
   C3_learning_counter.2.2.2.2.1 0 [true] (by decide),
   C3_learning_counter.2.2.2.2.2.1 exTriggers (by decide),
   C3_learning_counter.2.2.2.2.2.2 exSims exTriggers (by decide)⟩

/-- C6 — in the classifying state a similarity score is dispatched to the
anomaly signal iff it is strictly below `THRESH_SIMILARITY = 90` and to
the nominal signal otherwise; in particular `89` yields anomaly and `90`
yields nominal. -/
theorem C6_similarity_threshold :
    (∀ s : ℕ, (classify_step s = Event.anomaly ↔ s < THRESH_SIMILARITY) ∧
              (classify_step s = Event.nominal ↔ THRESH_SIMILARITY ≤ s)) ∧
    classify_step 89 = Event.anomaly ∧
    classify_step 90 = Event.nominal ∧
    (∀ (sims : ℕ → ℕ) (k : ℕ) (ts : List Bool),
      classify_phase sims k (true :: ts) =
        classify_step (sims k) :: classify_phase sims (k + 1) ts) := by
  refine ⟨?_, rfl, rfl, fun sims k ts => rfl⟩
  intro s
  unfold classify_step
  by_cases h : s < THRESH_SIMILARITY
  · rw [if_pos h]
    exact ⟨⟨fun _ => h, fun _ => rfl⟩,
           ⟨fun heq => absurd heq (by simp), fun hle => absurd h (Nat.not_lt.2 hle)⟩⟩
  · rw [if_neg h]
    exact ⟨⟨fun heq => absurd heq (by simp), fun hlt => absurd hlt h⟩,
           ⟨fun _ => Nat.not_lt.1 h, fun _ => rfl⟩⟩

/-- C7 — with quota `5`, the five learning events carry the percentages
`0, 20, 40, 60, 80` in order, and the learning-complete signal follows
the fifth learning event, before any classification event. -/
theorem C7_learning_progress (sims : ℕ → ℕ) (ts : List Bool)
    (h : LEARNING_NUMBER ≤ ts.count true) :
    (learn_phase 0 ts).2.1 =
      [Event.learned 0, Event.learned 20, Event.learned 40,
       Event.learned 60, Event.learned 80] ∧
    neai_library_test_mode sims ts =
      [Event.learned 0, Event.learned 20, Event.learned 40, Event.learned 60,
       Event.learned 80, Event.learning_over] ++
        classify_phase sims 0 (learn_phase 0 ts).2.2 := by
  obtain ⟨h1, h2, h3⟩ :=
    learn_phase_complete ts 0 (by norm_num [LEARNING_NUMBER]) (by omega)
  have hev : (learn_phase 0 ts).2.1 =
      [Event.learned 0, Event.learned 20, Event.learned 40,
       Event.learned 60, Event.learned 80] := by
    rw [h2]; rfl
  refine ⟨hev, ?_⟩
  unfold neai_library_test_mode
  rw [hev]
  rfl

/-- C7 — witness: the progress sequence on a concrete trigger prefix with
six true polls. -/
theorem C7_learning_progress_witness :
    (learn_phase 0 exTriggers).2.1 =
      [Event.learned 0, Event.learned 20, Event.learned 40,
       Event.learned 60, Event.learned 80] ∧
    neai_library_test_mode exSims exTriggers =
      [Event.learned 0, Event.learned 20, Event.learned 40, Event.learned 60,
       Event.learned 80, Event.learning_over] ++
        classify_phase exSims 0 (learn_phase 0 exTriggers).2.2 :=
  C7_learning_progress exSims exTriggers (by decide)

/-- A raw reading equal to the previously accepted one in any single axis
is rejected: the do-while keeps reading (with `raw_values` overwritten by
the rejected read). -/
theorem get_values_st_reject (s : MachState) (r : Raw) (stream : List Raw)
    (h : s.last_raw_values.1 = r.1 ∨ s.last_raw_values.2.1 = r.2.1 ∨
         s.last_raw_values.2.2 = r.2.2) :
    get_values_st s (r :: stream) = get_values_st { s with raw_values := r } stream := by
  simp only [get_values_st]
  rw [if_pos h]

/-- Every reading `get_values` accepts differs from the previously
accepted one in all three axes. -/
theorem get_values_st_fresh (stream : List Raw) :
    ∀ s s1 rest, get_values_st s stream = some (s1, rest) →
      s1.last_raw_values.1 ≠ s.last_raw_values.1 ∧
      s1.last_raw_values.2.1 ≠ s.last_raw_values.2.1 ∧
      s1.last_raw_values.2.2 ≠ s.last_raw_values.2.2 := by
  induction stream with
  | nil => intro s s1 rest h; simp [get_values_st] at h
  | cons r stream ih =>
    intro s s1 rest h
    by_cases hc : s.last_raw_values.1 = r.1 ∨ s.last_raw_values.2.1 = r.2.1 ∨
        s.last_raw_values.2.2 = r.2.2
    · rw [get_values_st_reject s r stream hc] at h
      exact ih { s with raw_values := r } s1 rest h
    · simp only [get_values_st, if_neg hc, Option.some.injEq, Prod.mk.injEq] at h
      obtain ⟨hs1, -⟩ := h
      subst hs1
      push_neg at hc
      exact ⟨fun he => hc.1 he.symm, fun he => hc.2.1 he.symm, fun he => hc.2.2 he.symm⟩

/-- `get_values` leaves the capture buffer untouched. -/
theorem get_values_st_data_user (stream : List Raw) :
    ∀ s s1 rest, get_values_st s stream = some (s1, rest) →
      s1.data_user = s.data_user := by
  induction stream with
  | nil => intro s s1 rest h; simp [get_values_st] at h
  | cons r stream ih =>
    intro s s1 rest h
    by_cases hc : s.last_raw_values.1 = r.1 ∨ s.last_raw_values.2.1 = r.2.1 ∨
        s.last_raw_values.2.2 = r.2.2
    · rw [get_values_st_reject s r stream hc] at h
      exact ih { s with raw_values := r } s1 rest h
    · simp only [get_values_st, if_neg hc, Option.some.injEq, Prod.mk.injEq] at h
      obtain ⟨hs1, -⟩ := h
      subst hs1
      rfl

/-- A summing window leaves the capture buffer untouched. -/
theorem window_loop_data_user :
    ∀ (n : ℕ) (acc : Vec3) (s : MachState) (stream : List Raw) res,
      window_loop acc s stream n = some res → res.2.1.data_user = s.data_user := by
  intro n
  induction n with
  | zero =>
    intro acc s stream res h
    simp only [window_loop, Option.some.injEq] at h
    rw [← h]
  | succ n ih =>
    intro acc s stream res h
    simp only [window_loop] at h
    cases hg : get_values_st s stream with
    | none => rw [hg] at h; simp at h
    | some p =>
      rw [hg] at h
      have h1 := ih (v3add acc p.1.values) p.1 p.2 res h
      rw [h1]
      exact get_values_st_data_user stream s p.1 p.2 hg

/-- C4 — `get_values` rejects and re-reads whenever the fresh raw triple
matches the previously accepted triple in any single axis, and every
accepted reading differs from the previously accepted one on all three
axes (in particular no two consecutively accepted samples agree on all
three axes). -/
theorem C4_duplicate_rejection :
    (∀ (s : MachState) (r : Raw) (stream : List Raw),
      (s.last_raw_values.1 = r.1 ∨ s.last_raw_values.2.1 = r.2.1 ∨
       s.last_raw_values.2.2 = r.2.2) →
      get_values_st s (r :: stream) = get_values_st { s with raw_values := r } stream) ∧
    (∀ (stream : List Raw) (s s1 : MachState) (rest : List Raw),
      get_values_st s stream = some (s1, rest) →
      s1.last_raw_values.1 ≠ s.last_raw_values.1 ∧
      s1.last_raw_values.2.1 ≠ s.last_raw_values.2.1 ∧
      s1.last_raw_values.2.2 ≠ s.last_raw_values.2.2) :=
  ⟨get_values_st_reject, fun stream s s1 rest => get_values_st_fresh stream s s1 rest⟩

/-- C4 — witness: the zeroed state rejects a reading whose first axis is
stale, and accepting `(1,2,3)` records a triple fresh in every axis. -/
theorem C4_duplicate_rejection_witness :
    get_values_st exState [((0 : ℤ), 5, 7)] =
      get_values_st { exState with raw_values := ((0 : ℤ), 5, 7) } [] ∧
    (exAccState.last_raw_values.1 ≠ exState.last_raw_values.1 ∧
     exAccState.last_raw_values.2.1 ≠ exState.last_raw_values.2.1 ∧
     exAccState.last_raw_values.2.2 ≠ exState.last_raw_values.2.2) :=
  ⟨C4_duplicate_rejection.1 exState ((0 : ℤ), 5, 7) [] (Or.inl rfl),
   C4_duplicate_rejection.2 [((1 : ℤ), 2, 3)] exState exAccState [] rfl⟩

/-- C9 — on every acceptance the stored last-raw triple becomes the
accepted raw triple (the final `raw_values`), and each physical value is
that axis's raw integer divided by `1000`, so after the call
`values[i] = last_raw_values[i] / 1000` on all three axes. -/
theorem C9_scaling (stream : List Raw) :
    ∀ s s1 rest, get_values_st s stream = some (s1, rest) →
      s1.last_raw_values = s1.raw_values ∧
      s1.values.1 = (s1.last_raw_values.1 : ℚ) / 1000 ∧
      s1.values.2.1 = (s1.last_raw_values.2.1 : ℚ) / 1000 ∧
      s1.values.2.2 = (s1.last_raw_values.2.2 : ℚ) / 1000 := by
  induction stream with
  | nil => intro s s1 rest h; simp [get_values_st] at h
  | cons r stream ih =>
    intro s s1 rest h
    by_cases hc : s.last_raw_values.1 = r.1 ∨ s.last_raw_values.2.1 = r.2.1 ∨
        s.last_raw_values.2.2 = r.2.2
    · rw [get_values_st_reject s r stream hc] at h
      exact ih { s with raw_values := r } s1 rest h
    · simp only [get_values_st, if_neg hc, Option.some.injEq, Prod.mk.injEq] at h
      obtain ⟨hs1, -⟩ := h
      subst hs1
      exact ⟨rfl, rfl, rfl, rfl⟩

/-- C9 — witness: accepting the raw reading `(4,5,6)` from the zeroed
state. -/
theorem C9_scaling_witness :
    exAccState9.last_raw_values = exAccState9.raw_values ∧
    exAccState9.values.1 = (exAccState9.last_raw_values.1 : ℚ) / 1000 ∧
    exAccState9.values.2.1 = (exAccState9.last_raw_values.2.1 : ℚ) / 1000 ∧
    exAccState9.values.2.2 = (exAccState9.last_raw_values.2.2 : ℚ) / 1000 :=
  C9_scaling [((4 : ℤ), 5, 6)] exState exAccState9 [] rfl

/-- C10 — a completed `strum_trigger` evaluation leaves every element of
the capture buffer `data_user` unchanged, whatever it returns: only
`fill_acc_array` writes `data_user`. -/
theorem C10_buffer_frame (s : MachState) (stream : List Raw) (b : Bool)
    (s1 : MachState) (rest : List Raw)
    (h : strum_trigger_st s stream = some (b, s1, rest)) :
    s1.data_user = s.data_user := by
  unfold strum_trigger_st at h
  cases hw1 : window_loop (0, 0, 0) s stream MINI with
  | none => rw [hw1] at h; simp at h
  | some p1 =>
    obtain ⟨refS, sA, streamA⟩ := p1
    simp only [hw1] at h
    cases hw2 : window_loop (0, 0, 0) sA streamA MINI with
    | none =>
      simp only [hw2] at h
      exact Option.noConfusion h
    | some p2 =>
      obtain ⟨newS, sB, streamB⟩ := p2
      simp only [hw2, Option.some.injEq, Prod.mk.injEq] at h
      obtain ⟨-, hs1, -⟩ := h
      rw [← hs1]
      rw [window_loop_data_user MINI (0, 0, 0) sA streamA (newS, sB, streamB) hw2]
      exact window_loop_data_user MINI (0, 0, 0) s stream (refS, sA, streamA) hw1

/-- C10 — witness: a full trigger evaluation over ten accepted readings
starting from a buffer holding `42` everywhere. -/
theorem C10_buffer_frame_witness : exFinalState.data_user = exState42.data_user :=
  C10_buffer_frame exState42 exStream (strum_decision exRefSum exNewSum)
    exFinalState [] rfl

/-- After `n` fill iterations every slot `3*i + j` with `i < n` holds
sample `i`'s axis-`j` value, independently of the buffer's previous
contents. -/
theorem fill_loop_get (vals : ℕ → Vec3) (buf : ℕ → ℚ) :
    ∀ (n i j : ℕ), i < n → j < AXIS_NUMBER →
      fill_loop vals n buf (AXIS_NUMBER * i + j) = axisGet (vals i) j := by
  intro n
  induction n with
  | zero => intro i j hi _; exact absurd hi (Nat.not_lt_zero i)
  | succ n ih =>
    intro i j hi hj
    simp only [AXIS_NUMBER] at hi hj ⊢
    simp only [fill_loop, slotWrite, AXIS_NUMBER]
    by_cases hin : i = n
    · subst hin
      interval_cases j
      · rw [if_neg (by omega), if_neg (by omega), if_pos (by omega)]
        rfl
      · rw [if_neg (by omega), if_pos (by omega)]
        rfl
      · rw [if_pos (by omega)]
        rfl
    · rw [if_neg (by omega), if_neg (by omega), if_neg (by omega)]
      exact ih i j (by omega) (by simp [AXIS_NUMBER]; omega)

/-- C5 — `fill_acc_array` draws samples `0 … DATA_INPUT_USER - 1` in
order and overwrites every one of the `3 × DATA_INPUT_USER` buffer slots:
slot `3*i + j` ends up holding sample `i`'s axis-`j` value, whatever the
buffer held before (the previous contents `buf` do not appear in the
result on any filled slot).  The embedding returns only the completed
buffer, so no partially filled buffer is observable outside the call. -/
theorem C5_fill (vals : ℕ → Vec3) (buf : ℕ → ℚ) (i j : ℕ)
    (hi : i < DATA_INPUT_USER) (hj : j < AXIS_NUMBER) :
    fill_acc_array vals buf (AXIS_NUMBER * i + j) = axisGet (vals i) j :=
  fill_loop_get vals buf DATA_INPUT_USER i j hi hj

/-- C5 — witness: sample 2's axis-1 value lands in slot 7 of a buffer
previously holding `7` everywhere. -/
theorem C5_fill_witness :
    fill_acc_array exFillVals exFillBuf (AXIS_NUMBER * 2 + 1) = axisGet (exFillVals 2) 1 :=
  C5_fill exFillVals exFillBuf 2 1 (by decide) (by decide)

end Ukulele
